import Mathlib

/-!
# flutter_car_toon: the Linux method-channel handler

A shallow embedding of `linux/flutter_car_toon_plugin.cc`.

* C strings (`const gchar*`, `char[65]`) are byte buffers `List Nat`; the end of
  the list stands for the terminating NUL, and a `0` byte inside the list
  terminates the string early, as it does in memory.
* The effects of the handler are made explicit in a `World`: the `uname`
  system call is a function on the `utsname` buffer, and the channel transport
  is the log of the `fl_method_call_respond` invocations.
* The flutter_linux objects the plugin touches (`FlValue`, `FlMethodResponse`,
  `FlMethodCall`, `FlMethodChannel`, `FlPluginRegistrar`) are modelled by the
  part of their interface the plugin uses.
-/

namespace FlutterCarToon

/-! ## C strings -/

/-- Bytes of an ASCII string literal of the source, without the terminator. -/
def ascii (s : String) : List Nat :=
  s.data.map Char.toNat

/-- Contents of a C string: the bytes of the buffer before the first NUL. -/
def cstr : List Nat → List Nat
  | [] => []
  | c :: cs => if c = 0 then [] else c :: cstr cs

/-- Model of `strcmp` from `<cstring>`: walks both buffers while the bytes agree and
are not NUL, and returns the difference of the first two bytes that differ
(`0` when both strings end together). -/
def strcmp : List Nat → List Nat → Int
  | [], [] => 0
  | [], b :: _ => 0 - (b : Int)
  | a :: _, [] => (a : Int) - 0
  | a :: as, b :: bs =>
    if a ≠ b then (a : Int) - (b : Int)
    else if a = 0 then 0
    else strcmp as bs

/-- Model of `g_strdup_printf` for the conversions the plugin uses: the bytes of
the format are copied up to its terminator, `%s` is replaced by the contents of
the next C-string argument and `%%` by a percent sign. The other conversions of
`printf` are outside this model (a `%` before any other byte is copied as it is);
the only format of the source is `"Linux %s"`. -/
def g_strdup_printf : List Nat → List (List Nat) → List Nat
  | [], _ => []
  | c :: fmt, args =>
    if c = 0 then []
    else if c = 37 then
      match fmt, args with
      | d :: rest, a :: args' =>
        if d = 115 then cstr a ++ g_strdup_printf rest args'
        else if d = 37 then 37 :: g_strdup_printf rest (a :: args')
        else c :: g_strdup_printf (d :: rest) (a :: args')
      | d :: rest, [] =>
        if d = 37 then 37 :: g_strdup_printf rest []
        else c :: g_strdup_printf (d :: rest) []
      | [], _ => [c]
    else c :: g_strdup_printf fmt args

/-! ## flutter_linux values, responses and calls -/

/-- Model of `FlValue`, the dynamically typed payload of the standard codec. -/
inductive FlValue where
  | null
  | bool (b : Bool)
  | int (i : Int)
  | string (s : List Nat)
  | uint8List (bs : List Nat)
  deriving DecidableEq

/-- Model of `FlMethodResponse` with its three subclasses `FlMethodSuccessResponse`,
`FlMethodErrorResponse` and `FlMethodNotImplementedResponse`. -/
inductive FlMethodResponse where
  | success (result : FlValue)
  | error (code : List Nat) (message : List Nat) (details : FlValue)
  | notImplemented
  deriving DecidableEq

/-- Model of `FlMethodCall`: the method name and the argument payload. -/
structure FlMethodCall where
  name : List Nat
  args : FlValue
  deriving DecidableEq

/-- Model of `fl_value_new_string`: copies the C string it is given. -/
def fl_value_new_string (s : List Nat) : FlValue :=
  FlValue.string (cstr s)

/-- Model of `fl_method_success_response_new`. -/
def fl_method_success_response_new (result : FlValue) : FlMethodResponse :=
  FlMethodResponse.success result

/-- Model of `fl_method_not_implemented_response_new`. -/
def fl_method_not_implemented_response_new : FlMethodResponse :=
  FlMethodResponse.notImplemented

/-- Model of `fl_method_call_get_name`. -/
def fl_method_call_get_name (method_call : FlMethodCall) : List Nat :=
  method_call.name

/-! ## The operating system and the transport -/

/-- Model of `struct utsname` from `<sys/utsname.h>`: six character arrays. -/
structure Utsname where
  sysname : List Nat
  nodename : List Nat
  release : List Nat
  version : List Nat
  machine : List Nat
  domainname : List Nat
  deriving DecidableEq

/-- Length of each `utsname` field on Linux (`_UTSNAME_LENGTH`). -/
def UTSNAME_LENGTH : Nat := 65

/-- The value of `struct utsname uname_data = {}`: every byte is zero. -/
def Utsname.zeroed : Utsname :=
  { sysname := List.replicate UTSNAME_LENGTH 0
    nodename := List.replicate UTSNAME_LENGTH 0
    release := List.replicate UTSNAME_LENGTH 0
    version := List.replicate UTSNAME_LENGTH 0
    machine := List.replicate UTSNAME_LENGTH 0
    domainname := List.replicate UTSNAME_LENGTH 0 }

/-- What the handler can observe and change: the `uname` system call, as a
function from the buffer it is handed to its return code and the buffer it
leaves behind, and the log of the responses handed to the transport by
`fl_method_call_respond`, oldest first. -/
structure World where
  uname : Utsname → Int × Utsname
  responses : List (FlMethodCall × FlMethodResponse)

/-- Model of `fl_method_call_respond`: the response for the call is handed to the
transport. -/
def fl_method_call_respond (method_call : FlMethodCall) (response : FlMethodResponse)
    (w : World) : World :=
  { w with responses := w.responses ++ [(method_call, response)] }

/-! ## The plugin -/

/-- The plugin object `struct _FlutterCarToonPlugin`: a `GObject` without fields. -/
structure FlutterCarToonPlugin where
  deriving DecidableEq

/-- The function `get_platform_version` of the source: zero the buffer, call `uname`
(its return code is dropped), format and wrap the version field. -/
def get_platform_version (w : World) : FlMethodResponse :=
  let uname_data : Utsname := Utsname.zeroed
  let uname_data : Utsname := (w.uname uname_data).2
  let version := g_strdup_printf (ascii "Linux %s") [uname_data.version]
  let result := fl_value_new_string version
  fl_method_success_response_new result

/-- The function `flutter_car_toon_plugin_handle_method_call` of the source. -/
def flutter_car_toon_plugin_handle_method_call (_self : FlutterCarToonPlugin)
    (method_call : FlMethodCall) (w : World) : World :=
  let method := fl_method_call_get_name method_call
  let response :=
    if strcmp method (ascii "getPlatformVersion") = 0 then
      get_platform_version w
    else
      fl_method_not_implemented_response_new
  fl_method_call_respond method_call response w

/-! ## Registration -/

/-- Model of `FlMethodCodec`. -/
inductive FlMethodCodec where
  | standard
  | json
  deriving DecidableEq

/-- Model of `fl_standard_method_codec_new`. -/
def fl_standard_method_codec_new : FlMethodCodec :=
  FlMethodCodec.standard

/-- Type of a method-call handler (`FlMethodChannelMethodCallHandler`): it gets the
name of the channel, the call and the user data it was installed with. -/
abbrev FlMethodChannelMethodCallHandler :=
  List Nat → FlMethodCall → FlutterCarToonPlugin → World → World

/-- Model of `FlMethodChannel`: name, codec and the installed handler with its user
data, if any. -/
structure FlMethodChannel where
  name : List Nat
  codec : FlMethodCodec
  method_call_handler : Option (FlMethodChannelMethodCallHandler × FlutterCarToonPlugin)

/-- Model of `FlBinaryMessenger`: the method channels created on it, oldest first. -/
structure FlBinaryMessenger where
  channels : List FlMethodChannel

/-- Model of `FlPluginRegistrar`. -/
structure FlPluginRegistrar where
  messenger : FlBinaryMessenger

/-- Model of `fl_plugin_registrar_get_messenger`. -/
def fl_plugin_registrar_get_messenger (registrar : FlPluginRegistrar) : FlBinaryMessenger :=
  registrar.messenger

/-- Model of `fl_method_channel_new`: a channel without handler is created on the
messenger; the channel is referred to by its position on the messenger. -/
def fl_method_channel_new (messenger : FlBinaryMessenger) (name : List Nat)
    (codec : FlMethodCodec) : Nat × FlBinaryMessenger :=
  (messenger.channels.length,
    { channels := messenger.channels ++
        [{ name := cstr name, codec := codec, method_call_handler := none }] })

/-- Replaces the handler of the channel at position `i`. -/
def setHandlerAt (h : FlMethodChannelMethodCallHandler × FlutterCarToonPlugin) :
    Nat → List FlMethodChannel → List FlMethodChannel
  | _, [] => []
  | 0, ch :: chs => { ch with method_call_handler := some h } :: chs
  | i + 1, ch :: chs => ch :: setHandlerAt h i chs

/-- Model of `fl_method_channel_set_method_call_handler`. -/
def fl_method_channel_set_method_call_handler (channel : Nat)
    (handler : FlMethodChannelMethodCallHandler) (user_data : FlutterCarToonPlugin)
    (messenger : FlBinaryMessenger) : FlBinaryMessenger :=
  { channels := setHandlerAt (handler, user_data) channel messenger.channels }

/-- Model of a method call arriving on a channel: the installed handler is run on
it; a channel without handler leaves the call alone. -/
def fl_method_channel_receive (channel : FlMethodChannel) (method_call : FlMethodCall)
    (w : World) : World :=
  match channel.method_call_handler with
  | some (handler, user_data) => handler channel.name method_call user_data w
  | none => w

/-- Model of the messenger delivering a call sent to a channel name: the channel
created last under that name receives it. -/
def fl_binary_messenger_receive (messenger : FlBinaryMessenger) (name : List Nat)
    (method_call : FlMethodCall) (w : World) : World :=
  match messenger.channels.reverse.find? (fun ch => decide (ch.name = name)) with
  | some channel => fl_method_channel_receive channel method_call w
  | none => w

/-- The function `method_call_cb` of the source. -/
def method_call_cb : FlMethodChannelMethodCallHandler :=
  fun _channel method_call user_data w =>
    let plugin : FlutterCarToonPlugin := user_data
    flutter_car_toon_plugin_handle_method_call plugin method_call w

/-- The function `flutter_car_toon_plugin_register_with_registrar` of the source. -/
def flutter_car_toon_plugin_register_with_registrar (registrar : FlPluginRegistrar) :
    FlPluginRegistrar :=
  let plugin : FlutterCarToonPlugin := {}
  let codec := fl_standard_method_codec_new
  let (channel, messenger) :=
    fl_method_channel_new (fl_plugin_registrar_get_messenger registrar)
      (ascii "flutter_car_toon") codec
  let messenger := fl_method_channel_set_method_call_handler channel method_call_cb plugin
    messenger
  { registrar with messenger := messenger }

/-! ## Sample worlds -/

/-- A `uname` that succeeds and fills in the fields of a Linux host. -/
def unameOk (_buf : Utsname) : Int × Utsname :=
  (0,
    { sysname := ascii "Linux"
      nodename := ascii "host"
      release := ascii "6.1.0"
      version := ascii "#1 SMP"
      machine := ascii "x86_64"
      domainname := ascii "(none)" })

/-- A `uname` that fails with `-1` and leaves the buffer as it found it. -/
def unameFail (buf : Utsname) : Int × Utsname :=
  (-1, buf)

/-- A world with a working `uname` and an empty response log. -/
def worldOk : World :=
  { uname := unameOk, responses := [] }

/-- A world whose `uname` fails, with an empty response log. -/
def worldFail : World :=
  { uname := unameFail, responses := [] }

/-- A call of `getPlatformVersion` without arguments. -/
def callVersion : FlMethodCall :=
  { name := ascii "getPlatformVersion", args := FlValue.null }

/-! ## Proof helper -/

/-- Closed form of the response the handler picks, as a function of the `uname`
result and the name alone; `handle_eq_responseFor` proves that the handler of the
source computes it. -/
def responseFor (uname : Utsname → Int × Utsname) (name : List Nat) : FlMethodResponse :=
  if cstr name = ascii "getPlatformVersion" then
    FlMethodResponse.success
      (FlValue.string (ascii "Linux " ++ cstr (uname Utsname.zeroed).2.version))
  else
    FlMethodResponse.notImplemented

/-! ## C-string lemmas -/

theorem strcmp_self_eval :
    strcmp (ascii "getPlatformVersion") (ascii "getPlatformVersion") = 0 := by decide

theorem strcmp_shorter_eval :
    strcmp (ascii "getPlatform") (ascii "getPlatformVersion") = -86 := by decide

theorem strcmp_extension_eval :
    strcmp (ascii "getPlatformVersion2") (ascii "getPlatformVersion") = 50 := by decide

theorem strcmp_empty_eval : strcmp [] (ascii "getPlatformVersion") = -103 := by decide

theorem strcmp_case_eval :
    strcmp (ascii "GetPlatformVersion") (ascii "getPlatformVersion") = -32 := by decide

theorem strcmp_embedded_nul_eval :
    strcmp (ascii "getPlatformVersion" ++ [0, 50]) (ascii "getPlatformVersion") = 0 := by
  decide

theorem cstr_no_zero (a : List Nat) : 0 ∉ cstr a := by
  induction a with
  | nil => simp [cstr]
  | cons c cs ih =>
    by_cases hc : c = 0
    · simp [cstr, hc]
    · simp [cstr, hc, ih]
      exact fun h => hc h.symm

theorem cstr_of_no_zero (a : List Nat) (h : 0 ∉ a) : cstr a = a := by
  induction a with
  | nil => rfl
  | cons c cs ih =>
    simp only [List.mem_cons, not_or] at h
    have hc : c ≠ 0 := fun e => h.1 e.symm
    simp [cstr, hc, ih h.2]

theorem cstr_idem (a : List Nat) : cstr (cstr a) = cstr a :=
  cstr_of_no_zero _ (cstr_no_zero a)

theorem cstr_append_of_no_zero (a b : List Nat) (h : 0 ∉ a) : cstr (a ++ b) = a ++ cstr b := by
  induction a with
  | nil => rfl
  | cons c cs ih =>
    simp only [List.mem_cons, not_or] at h
    have hc : c ≠ 0 := fun e => h.1 e.symm
    simp [cstr, hc, ih h.2]

/-- The result of `strcmp` is zero exactly when the two C strings have the same contents. -/
theorem strcmp_eq_zero_iff (a b : List Nat) : strcmp a b = 0 ↔ cstr a = cstr b := by
  induction a generalizing b with
  | nil =>
    cases b with
    | nil => simp [strcmp, cstr]
    | cons d ds =>
      by_cases hd : d = 0
      · simp [strcmp, cstr, hd]
      · simp [strcmp, cstr, hd]
  | cons c cs ih =>
    cases b with
    | nil =>
      by_cases hc : c = 0
      · simp [strcmp, cstr, hc]
      · simp [strcmp, cstr, hc]
    | cons d ds =>
      by_cases hcd : c = d
      · subst hcd
        by_cases hc : c = 0
        · simp [strcmp, cstr, hc]
        · simp [strcmp, cstr, hc, ih]
      · by_cases hc : c = 0
        · subst hc
          have hd : d ≠ 0 := fun e => hcd e.symm
          simp [strcmp, cstr, hd, hcd]
        · by_cases hd : d = 0
          · subst hd
            simp [strcmp, cstr, hc]
          · simp [strcmp, cstr, hc, hd, hcd]
            omega

theorem g_strdup_printf_linux (v : List Nat) :
    g_strdup_printf (ascii "Linux %s") [v] = ascii "Linux " ++ cstr v := by
  simp [g_strdup_printf, ascii]

theorem cstr_method_literal :
    cstr (ascii "getPlatformVersion") = ascii "getPlatformVersion" := by decide

theorem cstr_channel_literal :
    cstr (ascii "flutter_car_toon") = ascii "flutter_car_toon" := by decide

theorem cstr_zeroed_version : cstr Utsname.zeroed.version = [] := by decide

/-! ## The handler, branch by branch -/

/-- The response `get_platform_version` builds, in closed form. -/
theorem get_platform_version_eq (w : World) :
    get_platform_version w =
      FlMethodResponse.success
        (FlValue.string (ascii "Linux " ++ cstr (w.uname Utsname.zeroed).2.version)) := by
  have h0 : (0 : Nat) ∉ ascii "Linux " := by decide
  simp only [get_platform_version, fl_method_success_response_new, fl_value_new_string,
    g_strdup_printf_linux, cstr_append_of_no_zero _ _ h0, cstr_idem]

/-- The matched branch of the handler. -/
theorem handle_of_match (self : FlutterCarToonPlugin) (method_call : FlMethodCall) (w : World)
    (h : cstr method_call.name = ascii "getPlatformVersion") :
    flutter_car_toon_plugin_handle_method_call self method_call w =
      { w with responses := w.responses ++ [(method_call, get_platform_version w)] } := by
  have hz : strcmp method_call.name (ascii "getPlatformVersion") = 0 :=
    (strcmp_eq_zero_iff _ _).2 (h.trans cstr_method_literal.symm)
  simp [flutter_car_toon_plugin_handle_method_call, fl_method_call_get_name,
    fl_method_call_respond, hz]

/-- The unmatched branch of the handler. -/
theorem handle_of_no_match (self : FlutterCarToonPlugin) (method_call : FlMethodCall)
    (w : World) (h : cstr method_call.name ≠ ascii "getPlatformVersion") :
    flutter_car_toon_plugin_handle_method_call self method_call w =
      { w with responses :=
          w.responses ++ [(method_call, FlMethodResponse.notImplemented)] } := by
  have hz : strcmp method_call.name (ascii "getPlatformVersion") ≠ 0 := fun e =>
    h (((strcmp_eq_zero_iff _ _).1 e).trans cstr_method_literal)
  simp [flutter_car_toon_plugin_handle_method_call, fl_method_call_get_name,
    fl_method_call_respond, fl_method_not_implemented_response_new, hz]

/-- The handler appends `responseFor` of the call to the log and changes nothing else. -/
theorem handle_eq_responseFor (self : FlutterCarToonPlugin) (method_call : FlMethodCall)
    (w : World) :
    flutter_car_toon_plugin_handle_method_call self method_call w =
      { uname := w.uname
        responses := w.responses ++ [(method_call, responseFor w.uname method_call.name)] } := by
  by_cases h : cstr method_call.name = ascii "getPlatformVersion"
  · rw [handle_of_match self method_call w h, get_platform_version_eq]
    simp [responseFor, h]
  · rw [handle_of_no_match self method_call w h]
    simp [responseFor, h]

theorem setHandlerAt_length_append (h : FlMethodChannelMethodCallHandler × FlutterCarToonPlugin)
    (chs : List FlMethodChannel) (ch : FlMethodChannel) :
    setHandlerAt h chs.length (chs ++ [ch]) =
      chs ++ [{ ch with method_call_handler := some h }] := by
  induction chs with
  | nil => rfl
  | cons c cs ih => simp [setHandlerAt, ih]

/-! ## The claims -/

/-- C1: a call whose name is not the C string `getPlatformVersion` is answered with the
not-implemented response, and with no success response. -/
theorem C1_other_name_not_implemented (self : FlutterCarToonPlugin)
    (method_call : FlMethodCall) (w : World)
    (hname : cstr (fl_method_call_get_name method_call) ≠ ascii "getPlatformVersion") :
    (flutter_car_toon_plugin_handle_method_call self method_call w).responses =
        w.responses ++ [(method_call, FlMethodResponse.notImplemented)] ∧
      ∀ result : FlValue,
        (flutter_car_toon_plugin_handle_method_call self method_call w).responses ≠
          w.responses ++ [(method_call, FlMethodResponse.success result)] := by
  have h := handle_of_no_match self method_call w hname
  refine ⟨by rw [h], fun result e => ?_⟩
  rw [h] at e
  simp at e

/-- C1 at the proper prefix `getPlatform` of the method name. -/
theorem C1_other_name_not_implemented_witness :
    cstr (fl_method_call_get_name { name := ascii "getPlatform", args := FlValue.null }) ≠
        ascii "getPlatformVersion" ∧
      ((flutter_car_toon_plugin_handle_method_call {}
          { name := ascii "getPlatform", args := FlValue.null } worldOk).responses =
        worldOk.responses ++
          [({ name := ascii "getPlatform", args := FlValue.null },
            FlMethodResponse.notImplemented)] ∧
      ∀ result : FlValue,
        (flutter_car_toon_plugin_handle_method_call {}
            { name := ascii "getPlatform", args := FlValue.null } worldOk).responses ≠
          worldOk.responses ++
            [({ name := ascii "getPlatform", args := FlValue.null },
              FlMethodResponse.success result)]) :=
  ⟨by decide,
    C1_other_name_not_implemented {} { name := ascii "getPlatform", args := FlValue.null }
      worldOk (by decide)⟩

/-- C2: a call named `getPlatformVersion` is answered with a success response carrying
`"Linux "` followed by the version string `v` that `uname` left in the buffer; that
string is not empty and starts with `Linux`. -/
theorem C2_version_success (self : FlutterCarToonPlugin) (method_call : FlMethodCall)
    (w : World) (v : List Nat)
    (hname : cstr (fl_method_call_get_name method_call) = ascii "getPlatformVersion")
    (hv : cstr (w.uname Utsname.zeroed).2.version = v) :
    (flutter_car_toon_plugin_handle_method_call self method_call w).responses =
        w.responses ++
          [(method_call, FlMethodResponse.success (FlValue.string (ascii "Linux " ++ v)))] ∧
      ascii "Linux " ++ v ≠ [] ∧
      ascii "Linux" <+: ascii "Linux " ++ v := by
  subst hv
  refine ⟨?_, ?_, ?_⟩
  · rw [handle_of_match self method_call w hname, get_platform_version_eq]
  · simp [ascii]
  · exact ⟨32 :: cstr (w.uname Utsname.zeroed).2.version, by simp [ascii]⟩

/-- C2 on a host whose version field is `#1 SMP`. -/
theorem C2_version_success_witness :
    cstr (fl_method_call_get_name callVersion) = ascii "getPlatformVersion" ∧
      cstr (worldOk.uname Utsname.zeroed).2.version = ascii "#1 SMP" ∧
      ((flutter_car_toon_plugin_handle_method_call {} callVersion worldOk).responses =
          worldOk.responses ++
            [(callVersion,
              FlMethodResponse.success (FlValue.string (ascii "Linux " ++ ascii "#1 SMP")))] ∧
        ascii "Linux " ++ ascii "#1 SMP" ≠ [] ∧
        ascii "Linux" <+: ascii "Linux " ++ ascii "#1 SMP") :=
  ⟨by decide, by decide,
    C2_version_success {} callVersion worldOk (ascii "#1 SMP") (by decide) (by decide)⟩

/-- C3: every call is answered exactly once: the log of responses grows by exactly one
entry, an entry for this call, whichever branch is taken; the earlier entries and the
operating system are left as they were. -/
theorem C3_exactly_one_response (self : FlutterCarToonPlugin) (method_call : FlMethodCall)
    (w : World) :
    (flutter_car_toon_plugin_handle_method_call self method_call w).responses.length =
        w.responses.length + 1 ∧
      (∃ response : FlMethodResponse,
        (flutter_car_toon_plugin_handle_method_call self method_call w).responses =
          w.responses ++ [(method_call, response)]) ∧
      (flutter_car_toon_plugin_handle_method_call self method_call w).uname = w.uname := by
  rw [handle_eq_responseFor]
  exact ⟨by simp, ⟨_, rfl⟩, rfl⟩

/-- C4: handling the same call twice under the same `uname` logs the same response
twice, and that response is the one the call gets in any other world with the same
`uname`, whatever was answered before. -/
theorem C4_same_call_same_response (self : FlutterCarToonPlugin) (method_call : FlMethodCall)
    (uname : Utsname → Int × Utsname)
    (log log' : List (FlMethodCall × FlMethodResponse)) :
    ∃ response : FlMethodResponse,
      (flutter_car_toon_plugin_handle_method_call self method_call
          (flutter_car_toon_plugin_handle_method_call self method_call
            { uname := uname, responses := log })).responses =
        log ++ [(method_call, response), (method_call, response)] ∧
      (flutter_car_toon_plugin_handle_method_call self method_call
          { uname := uname, responses := log' }).responses =
        log' ++ [(method_call, response)] := by
  refine ⟨responseFor uname method_call.name, ?_, ?_⟩
  · rw [handle_eq_responseFor, handle_eq_responseFor]
    simp
  · rw [handle_eq_responseFor]

/-- C5: for a call with a non-empty name the handler yields a result, and the response
it sends is a success response carrying a string or the not-implemented response,
never an error response. -/
theorem C5_two_variants (self : FlutterCarToonPlugin) (method_call : FlMethodCall) (w : World)
    (_hname : cstr (fl_method_call_get_name method_call) ≠ []) :
    ∃ response : FlMethodResponse,
      flutter_car_toon_plugin_handle_method_call self method_call w =
          { uname := w.uname, responses := w.responses ++ [(method_call, response)] } ∧
        ((∃ s : List Nat, response = FlMethodResponse.success (FlValue.string s)) ∨
          response = FlMethodResponse.notImplemented) ∧
        ∀ (code message : List Nat) (details : FlValue),
          response ≠ FlMethodResponse.error code message details := by
  refine ⟨responseFor w.uname method_call.name, handle_eq_responseFor self method_call w, ?_, ?_⟩
  · by_cases h : cstr method_call.name = ascii "getPlatformVersion"
    · exact Or.inl ⟨ascii "Linux " ++ cstr (w.uname Utsname.zeroed).2.version,
        by simp [responseFor, h]⟩
    · exact Or.inr (by simp [responseFor, h])
  · intro code message details
    by_cases h : cstr method_call.name = ascii "getPlatformVersion" <;> simp [responseFor, h]

/-- C5 at the call of `getPlatformVersion` on a host whose `uname` fails. -/
theorem C5_two_variants_witness :
    cstr (fl_method_call_get_name callVersion) ≠ [] ∧
      ∃ response : FlMethodResponse,
        flutter_car_toon_plugin_handle_method_call {} callVersion worldFail =
            { uname := worldFail.uname
              responses := worldFail.responses ++ [(callVersion, response)] } ∧
          ((∃ s : List Nat, response = FlMethodResponse.success (FlValue.string s)) ∨
            response = FlMethodResponse.notImplemented) ∧
          ∀ (code message : List Nat) (details : FlValue),
            response ≠ FlMethodResponse.error code message details :=
  ⟨by decide, C5_two_variants {} callVersion worldFail (by decide)⟩

/-- C6: when `uname` fails with `-1` and leaves the zeroed buffer as it was,
`get_platform_version` still returns a success response, whose string is exactly
`"Linux "`; it is neither the not-implemented response nor an error response. -/
theorem C6_uname_failure_not_surfaced (w : World)
    (hfail : w.uname Utsname.zeroed = (-1, Utsname.zeroed)) :
    get_platform_version w = FlMethodResponse.success (FlValue.string (ascii "Linux ")) ∧
      get_platform_version w ≠ FlMethodResponse.notImplemented ∧
      ∀ (code message : List Nat) (details : FlValue),
        get_platform_version w ≠ FlMethodResponse.error code message details := by
  have h : get_platform_version w =
      FlMethodResponse.success (FlValue.string (ascii "Linux ")) := by
    rw [get_platform_version_eq, hfail]
    simp [cstr_zeroed_version]
  refine ⟨h, ?_, ?_⟩
  · rw [h]
    simp
  · intro code message details
    rw [h]
    simp

/-- C6 on the world whose `uname` returns `-1` without touching the buffer. -/
theorem C6_uname_failure_not_surfaced_witness :
    worldFail.uname Utsname.zeroed = (-1, Utsname.zeroed) ∧
      (get_platform_version worldFail =
          FlMethodResponse.success (FlValue.string (ascii "Linux ")) ∧
        get_platform_version worldFail ≠ FlMethodResponse.notImplemented ∧
        ∀ (code message : List Nat) (details : FlValue),
          get_platform_version worldFail ≠ FlMethodResponse.error code message details) :=
  ⟨rfl, C6_uname_failure_not_surfaced worldFail rfl⟩

/-- C7: registration adds exactly one channel to the messenger of the registrar, named
`flutter_car_toon`, and a call received on that channel, or delivered by the messenger
under that name, is handled exactly as `flutter_car_toon_plugin_handle_method_call`
handles it. -/
theorem C7_register_one_channel (registrar : FlPluginRegistrar) :
    ∃ channel : FlMethodChannel,
      (flutter_car_toon_plugin_register_with_registrar registrar).messenger.channels =
          registrar.messenger.channels ++ [channel] ∧
        channel.name = ascii "flutter_car_toon" ∧
        (∀ (method_call : FlMethodCall) (w : World),
          fl_method_channel_receive channel method_call w =
            flutter_car_toon_plugin_handle_method_call {} method_call w) ∧
        ∀ (method_call : FlMethodCall) (w : World),
          fl_binary_messenger_receive
              (flutter_car_toon_plugin_register_with_registrar registrar).messenger
              (ascii "flutter_car_toon") method_call w =
            flutter_car_toon_plugin_handle_method_call {} method_call w := by
  have hreg : (flutter_car_toon_plugin_register_with_registrar registrar).messenger.channels =
      registrar.messenger.channels ++
        [{ name := ascii "flutter_car_toon", codec := FlMethodCodec.standard,
           method_call_handler := some (method_call_cb, {}) }] := by
    simp [flutter_car_toon_plugin_register_with_registrar, fl_method_channel_new,
      fl_method_channel_set_method_call_handler, fl_plugin_registrar_get_messenger,
      fl_standard_method_codec_new, setHandlerAt_length_append, cstr_channel_literal]
  refine ⟨_, hreg, rfl, fun method_call w => rfl, fun method_call w => ?_⟩
  simp [fl_binary_messenger_receive, hreg, fl_method_channel_receive, method_call_cb]

/-- C8: two calls with the same name and any two argument payloads get the same
response under the same `uname`, whatever the logs; and `getPlatformVersion` called
with any arguments gets the success response. -/
theorem C8_arguments_ignored (self : FlutterCarToonPlugin) (name : List Nat)
    (args args' : FlValue) (uname : Utsname → Int × Utsname)
    (log log' : List (FlMethodCall × FlMethodResponse)) :
    (∃ response : FlMethodResponse,
      (flutter_car_toon_plugin_handle_method_call self { name := name, args := args }
          { uname := uname, responses := log }).responses =
        log ++ [({ name := name, args := args }, response)] ∧
      (flutter_car_toon_plugin_handle_method_call self { name := name, args := args' }
          { uname := uname, responses := log' }).responses =
        log' ++ [({ name := name, args := args' }, response)]) ∧
    (flutter_car_toon_plugin_handle_method_call self
        { name := ascii "getPlatformVersion", args := args }
        { uname := uname, responses := log }).responses =
      log ++ [({ name := ascii "getPlatformVersion", args := args },
        FlMethodResponse.success
          (FlValue.string (ascii "Linux " ++ cstr (uname Utsname.zeroed).2.version)))] := by
  refine ⟨⟨responseFor uname name, ?_, ?_⟩, ?_⟩
  · rw [handle_eq_responseFor]
  · rw [handle_eq_responseFor]
  · rw [handle_eq_responseFor]
    simp [responseFor, cstr_method_literal]

end FlutterCarToon
